import Mathlib

/-!
# Verification of the manga/manhwa image-upscaling extension pipeline

Shallow embedding of the content script (`src/extension/content.js` and its
fuller revision `src/unnamed/part_000`) and the background service worker
(`src/extension/background.js`) of the AI reading-upscale browser extension.

JavaScript values are embedded as follows:
* JS strings are Lean `String`s; a nullable string (`getAttribute` result) is
  `Option String`; DOM properties that default to the empty string (`img.src`,
  `img.alt`, `img.className`) are plain `String`s with `""` meaning unset,
  matching JS truthiness checks.
* `parseInt` of an attribute is `Option Int` (`none` models `NaN`).
* JS numbers used as sizes/positions are `Nat`/`Int`; the one fractional
  computation (`length / 1024 / 1024 > 20`) is replaced by the exactly
  equivalent integer comparison `20971520 < length` (double-precision
  division of integers of this magnitude is exact enough that the strict
  comparison against 20 agrees).
* Asynchronous I/O (image loading, `fetch`, `chrome.runtime.sendMessage`) is
  an explicit environment/oracle describing each operation's outcome; thrown
  exceptions are `Except.error` carrying the message string.
* The single-threaded event-loop interleaving of detection passes and the
  queue worker is a small-step machine whose events are the code's
  suspension-point boundaries.

Ghost fields (`enqueueLog`, `submitLog`, `attemptLog`, `notifications`,
`listenersRegistered`, attempted-tier lists, network-request counters) record
observable actions for the theorems and never influence control flow.
-/

/-! ## JS string primitives -/

/-- JS `String.prototype.includes`: `sub` occurs as a contiguous substring,
i.e. it is a prefix of some suffix. -/
def jsStrIncludes (s sub : String) : Bool :=
  s.toList.tails.any (fun t => sub.toList.isPrefixOf t)

/-- JS `String.prototype.toLowerCase` (ASCII case folding suffices for the
URLs, class names and alt text the handlers inspect). -/
def jsToLower (s : String) : String :=
  String.mk (s.toList.map Char.toLower)

/-- JS truthiness of a nullable string: `null` and `""` are falsy. -/
def jsTruthy : Option String → Bool
  | some s => s != ""
  | none => false

/-- JS `String.prototype.endsWith`: `suf` is a suffix of `s`. -/
def jsEndsWith (s suf : String) : Bool :=
  suf.toList.reverse.isPrefixOf s.toList.reverse

/-! ## The `btoa` builtin

`btoa` base64-encodes a string of Latin-1 code points and throws
`InvalidCharacterError` on any code point above `0xFF`; the partiality is the
`Option`. -/

def base64Alphabet : List Char :=
  "ABCDEFGHIJKLMNOPQRSTUVWXYZabcdefghijklmnopqrstuvwxyz0123456789+/".toList

def b64Char (n : Nat) : Char := base64Alphabet.getD n 'A'

def b64EncodeBytes : List Nat → List Char
  | [] => []
  | [a] => [b64Char (a / 4), b64Char (a % 4 * 16), '=', '=']
  | [a, b] => [b64Char (a / 4), b64Char (a % 4 * 16 + b / 16), b64Char (b % 16 * 4), '=']
  | a :: b :: c :: rest =>
      b64Char (a / 4) :: b64Char (a % 4 * 16 + b / 16) ::
      b64Char (b % 16 * 4 + c / 64) :: b64Char (c % 64) :: b64EncodeBytes rest

def btoa (s : String) : Option String :=
  if s.toList.all (fun c => c.toNat ≤ 255) then
    some (String.mk (b64EncodeBytes (s.toList.map Char.toNat)))
  else none

/-! ## DOM image elements

The observable state of one `<img>` element, as read by the content script:
URL-bearing attributes, classification attributes, natural dimensions, the
`complete` flag, the two per-element dataset guard flags, and the vertical
page offset `getImageVerticalPosition` would compute. -/

structure Img where
  src : String
  dataUrlAttr : Option String
  dataSrcAttr : Option String
  widthAttr : Option Int
  heightAttr : Option Int
  alt : String
  className : String
  naturalWidth : Nat
  naturalHeight : Nat
  complete : Bool
  loadListenerAdded : Bool
  urlObserverAdded : Bool
  verticalPosition : Int
deriving DecidableEq

/-- A site handler record from `SITE_HANDLERS` (content.js lines 40-62):
`isReadingPage` reads only `window.location`/document state, so it is passed
to `processImage` as a boolean alongside the handler. -/
structure SiteHandler where
  name : String
  isMangaImage : Img → Bool
  getImageUrl : Img → Option String
  needsBackgroundFetch : Bool

/-! ## Site handler implementations (content.js lines 64-220) -/

def mangadexIsMangaImage (img : Img) : Bool :=
  let className := jsToLower img.className
  jsStrIncludes className "img" && jsStrIncludes className "limit-width"

def mangadexGetImageUrl (img : Img) : Option String :=
  if img.src != "" then some img.src else none

def webtoonIsMangaImage (img : Img) : Bool :=
  let className := jsToLower img.className
  let src := jsToLower img.src
  let dataUrl := jsToLower (img.dataUrlAttr.getD "")
  let urlToCheck := if dataUrl != "" then dataUrl else src
  if !jsStrIncludes className "_images" || jsStrIncludes className "_thumbnailimages" then
    false
  else if jsStrIncludes urlToCheck "/thumb_" || jsStrIncludes urlToCheck "thumb_poster" then
    false
  else
    true

def webtoonSrcStep (img : Img) : Option String :=
  let src := img.src
  if jsStrIncludes src "bg_transparency" || jsStrIncludes src "placeholder" then
    none
  else if src != "" then some src else none

def webtoonGetImageUrl (img : Img) : Option String :=
  match img.dataUrlAttr with
  | some d =>
      if d != "" && !jsStrIncludes d "bg_transparency" && !jsStrIncludes d "placeholder" then
        some d
      else webtoonSrcStep img
  | none => webtoonSrcStep img

/-! AsuraScans: the chapter-page URL pattern
`/\/storage\/media\/\d+\/(\d{2}\.(jpg|png|webp)|conversions\/\d{2}-optimized\.(jpg|png|webp))/`
is embedded as a direct matcher over character lists; `RegExp.test` searches
every position, and since `\d+` is followed by `/`, greedy maximal munch is
exact. -/

def matchLit (pat : String) (cs : List Char) : Option (List Char) :=
  if pat.toList.isPrefixOf cs then some (cs.drop pat.length) else none

def matchDigitsPlus (cs : List Char) : Option (List Char) :=
  let rest := cs.dropWhile Char.isDigit
  if rest.length < cs.length then some rest else none

def matchTwoDigits : List Char → Option (List Char)
  | a :: b :: rest => if a.isDigit && b.isDigit then some rest else none
  | _ => none

def matchExtChoice (cs : List Char) : Bool :=
  (matchLit "jpg" cs).isSome || (matchLit "png" cs).isSome || (matchLit "webp" cs).isSome

def asuraMatchAt (cs : List Char) : Bool :=
  match matchLit "/storage/media/" cs with
  | none => false
  | some cs1 =>
    match matchDigitsPlus cs1 with
    | none => false
    | some cs2 =>
      match matchLit "/" cs2 with
      | none => false
      | some cs3 =>
        (match matchTwoDigits cs3 with
         | some cs4 =>
           (match matchLit "." cs4 with
            | some cs5 => matchExtChoice cs5
            | none => false)
         | none => false)
        ||
        (match matchLit "conversions/" cs3 with
         | some cs4 =>
           (match matchTwoDigits cs4 with
            | some cs5 =>
              (match matchLit "-optimized." cs5 with
               | some cs6 => matchExtChoice cs6
               | none => false)
            | none => false)
         | none => false)

def asuraChapterPatternTest (s : String) : Bool :=
  s.toList.tails.any asuraMatchAt

def asuraIsMangaImage (img : Img) : Bool :=
  let src := jsToLower img.src
  let alt := jsToLower img.alt
  if !jsStrIncludes src "/storage/media/" then
    false
  else
    asuraChapterPatternTest src || jsStrIncludes alt "chapter page"

def asuraGetImageUrl (img : Img) : Option String :=
  if img.src != "" then some img.src else none

def uiPatterns : List String :=
  ["icon", "logo", "avatar", "profile", "button", "banner",
   "badge", "emoji", "spinner", "loading", "placeholder",
   "thumbnail", "arrow", "chevron", "menu", "nav", "header",
   "footer", "sidebar", "ad", "advertisement"]

def nonMangaAltPatterns : List String :=
  ["user", "profile", "close", "menu", "search"]

def genericIsMangaImage (img : Img) : Bool :=
  let src := jsToLower img.src
  let alt := jsToLower img.alt
  let className := jsToLower img.className
  if uiPatterns.any (fun p =>
      jsStrIncludes src p || jsStrIncludes alt p || jsStrIncludes className p) then
    false
  else if jsStrIncludes className "rounded-full" || jsStrIncludes className "rounded-circle" then
    false
  else if alt != "" && !jsStrIncludes alt "chapter" && !jsStrIncludes alt "page" &&
          !jsStrIncludes alt "comic" then
    !(nonMangaAltPatterns.any (fun p => jsStrIncludes alt p))
  else
    true

def genericDataUrlStep (img : Img) : Option String :=
  match img.dataUrlAttr with
  | some d =>
      if d != "" && !jsStrIncludes d "placeholder" then some d
      else if img.src != "" then some img.src else none
  | none => if img.src != "" then some img.src else none

def genericGetImageUrl (img : Img) : Option String :=
  match img.dataSrcAttr with
  | some d =>
      if d != "" && !jsStrIncludes d "placeholder" then some d
      else genericDataUrlStep img
  | none => genericDataUrlStep img

def mangadexHandler : SiteHandler :=
  { name := "MangaDex", isMangaImage := mangadexIsMangaImage,
    getImageUrl := mangadexGetImageUrl, needsBackgroundFetch := false }

def webtoonHandler : SiteHandler :=
  { name := "Webtoon", isMangaImage := webtoonIsMangaImage,
    getImageUrl := webtoonGetImageUrl, needsBackgroundFetch := false }

def asuraHandler : SiteHandler :=
  { name := "AsuraScans", isMangaImage := asuraIsMangaImage,
    getImageUrl := asuraGetImageUrl, needsBackgroundFetch := true }

def genericHandler : SiteHandler :=
  { name := "Generic", isMangaImage := genericIsMangaImage,
    getImageUrl := genericGetImageUrl, needsBackgroundFetch := true }

/-! ## Image utilities (content.js lines 258-330) -/

/-- `isAnimatedImage` (content.js lines 265-270). -/
def isAnimatedImage (src : Option String) : Bool :=
  if !jsTruthy src then false
  else
    let lowerSrc := jsToLower (src.getD "")
    jsEndsWith lowerSrc ".gif" || jsStrIncludes lowerSrc ".gif?" ||
    jsStrIncludes lowerSrc "/gif/" || jsStrIncludes lowerSrc "emoji" ||
    jsStrIncludes lowerSrc "spinner"

/-- The URL `getImageId` hashes: `currentSiteHandler.getImageUrl(img) || img.src`
(content.js line 285); JS `||` also falls through on the empty string. -/
def resolvedIdUrl (h : SiteHandler) (img : Img) : String :=
  match h.getImageUrl img with
  | some u => if u == "" then img.src else u
  | none => img.src

/-- `getImageId` (content.js lines 284-287): `btoa(actualUrl)`; `none` models a
thrown `InvalidCharacterError`. -/
def getImageId (h : SiteHandler) (img : Img) : Option String :=
  btoa (resolvedIdUrl h img)

/-- The `CONFIG` size bounds (content.js lines 5-11 and part_000 lines 5-12
differ in `maxImageWidth`). -/
structure Config where
  minImageWidth : Int
  minImageHeight : Int
  maxImageWidth : Int
  maxImageHeight : Int
deriving DecidableEq

/-- `CONFIG` of `src/extension/content.js` lines 5-11. -/
def CONFIG : Config :=
  { minImageWidth := 200, minImageHeight := 200,
    maxImageWidth := 2000, maxImageHeight := 20000 }

/-- `CONFIG` of `src/unnamed/part_000` lines 5-12. -/
def CONFIG_v2 : Config :=
  { minImageWidth := 200, minImageHeight := 200,
    maxImageWidth := 3000, maxImageHeight := 20000 }

/-- `img.src && (img.src.includes('bg_transparency') || img.src.includes('placeholder'))`
(content.js line 298). -/
def isPlaceholderLoaded (img : Img) : Bool :=
  img.src != "" && (jsStrIncludes img.src "bg_transparency" || jsStrIncludes img.src "placeholder")

/-- The `width`/`height` locals of `meetsImageCriteria` after the possible
attribute substitution for placeholder-loaded lazy images
(content.js lines 293-307). -/
def gateDims (h : SiteHandler) (img : Img) : Int × Int :=
  let width : Int := img.naturalWidth
  let height : Int := img.naturalHeight
  if isPlaceholderLoaded img && jsTruthy (h.getImageUrl img) then
    match img.widthAttr, img.heightAttr with
    | some w, some hgt => if 0 < w && 0 < hgt then (w, hgt) else (width, height)
    | some _, none => (width, height)
    | none, _ => (width, height)
  else (width, height)

/-- The deferral condition of `meetsImageCriteria` (content.js line 310):
`width === 0 || height === 0 || (!img.complete && !isPlaceholderLoaded)`. -/
def gateDefer (img : Img) (width height : Int) : Bool :=
  width == 0 || height == 0 || (!img.complete && !isPlaceholderLoaded img)

/-- Result of one `meetsImageCriteria` call: the returned boolean, the element
with its dataset flag possibly set, and a ghost count of `addEventListener`
registrations made by this call. -/
structure GateResult where
  eligible : Bool
  img : Img
  listenersRegistered : Nat
deriving DecidableEq

/-- `meetsImageCriteria` (content.js lines 292-330; part_000 lines 341-387 is
the same logic with `CONFIG_v2` and debug logging). -/
def meetsImageCriteria (cfg : Config) (h : SiteHandler) (img : Img) : GateResult :=
  let dims := gateDims h img
  if gateDefer img dims.1 dims.2 then
    if !img.loadListenerAdded then
      { eligible := false, img := { img with loadListenerAdded := true }, listenersRegistered := 1 }
    else
      { eligible := false, img := img, listenersRegistered := 0 }
  else if dims.1 < cfg.minImageWidth || dims.2 < cfg.minImageHeight then
    { eligible := false, img := img, listenersRegistered := 0 }
  else if cfg.maxImageWidth < dims.1 || cfg.maxImageHeight < dims.2 then
    { eligible := false, img := img, listenersRegistered := 0 }
  else
    { eligible := true, img := img, listenersRegistered := 0 }

/-! ## Queue items and page-session pipeline state (content.js lines 17-30, 507-515) -/

/-- A `QueueItem` as pushed by `processImage` (content.js lines 507-515); the
live element reference is identified by its `imageId`, and the UI-only fields
(`status`, `progress`, `startTime`) are dropped. -/
structure QueueItem where
  imageId : String
  actualUrl : String
  verticalPosition : Int
deriving DecidableEq

/-- The queue comparator `(a, b) => a.verticalPosition - b.verticalPosition`
(content.js line 519), as the ordering relation it sorts by. The JS engine's
`Array.prototype.sort` is embedded as a stable structural sort by this
relation. -/
def qle (a b : QueueItem) : Prop :=
  a.verticalPosition ≤ b.verticalPosition

instance : DecidableRel qle := fun a b => Int.decLe a.verticalPosition b.verticalPosition

instance : IsTotal QueueItem qle := ⟨fun a b => Int.le_total a.verticalPosition b.verticalPosition⟩

instance : IsTrans QueueItem qle := ⟨fun _ _ _ h1 h2 => le_trans h1 h2⟩

/-- The module-level mutable state of the content script that the detection
entry point touches, plus the worker's in-flight slot and a ghost log of every
QueueItem creation. -/
structure PipeState where
  isEnabled : Bool
  processedImages : List String
  imageQueue : List QueueItem
  inFlight : Option QueueItem
  totalDetected : Nat
  enqueueLog : List String
deriving DecidableEq

/-- `processImage` (content.js lines 449-523, identically part_000 lines
559-652): the detection pass over one image. Returns the updated module state
and the element with its dataset flags possibly updated. `reading` is the
value of `currentSiteHandler.isReadingPage()`. A `getImageId` failure
(`btoa` throwing) rejects the async function before any queue mutation. -/
def processImage (h : SiteHandler) (reading : Bool) (cfg : Config) (img : Img)
    (st : PipeState) : PipeState × Img :=
  if !st.isEnabled then (st, img)
  else if !reading then (st, img)
  else if !jsTruthy (h.getImageUrl img) then
    if !img.urlObserverAdded then (st, { img with urlObserverAdded := true })
    else (st, img)
  else if isAnimatedImage (h.getImageUrl img) then (st, img)
  else if !h.isMangaImage img then (st, img)
  else
    match getImageId h img with
    | none => (st, img)
    | some imageId =>
      if !(meetsImageCriteria cfg h img).eligible then (st, (meetsImageCriteria cfg h img).img)
      else if st.processedImages.contains imageId then (st, (meetsImageCriteria cfg h img).img)
      else if st.imageQueue.any (fun it => it.imageId == imageId) then
        (st, (meetsImageCriteria cfg h img).img)
      else
        ({ st with
            totalDetected := st.totalDetected + 1,
            imageQueue :=
              (st.imageQueue ++
                [({ imageId := imageId, actualUrl := (h.getImageUrl img).getD "",
                    verticalPosition := img.verticalPosition } : QueueItem)]).insertionSort qle,
            enqueueLog := st.enqueueLog ++ [imageId] },
         (meetsImageCriteria cfg h img).img)

/-! ## Cooperative interleaving of detection passes and the queue worker

The content script is single-threaded; detection passes and the worker loop
interleave only at `await` boundaries. Each event is one atomic segment:
a whole detection pass (`processImage` runs no `await` before its queue
push), the worker shifting the queue head (content.js line 535), and the
worker finishing the in-flight item (the segment after
`await chrome.runtime.sendMessage`, which adds to `processedImages` exactly
on success, content.js lines 553-570). -/

inductive Event
  | detect (img : Img)
  | dequeue
  | finish (success : Bool)

def step (h : SiteHandler) (reading : Bool) (cfg : Config) (st : PipeState) :
    Event → PipeState
  | .detect img => (processImage h reading cfg img st).1
  | .dequeue =>
    match st.inFlight, st.imageQueue with
    | none, qi :: rest => { st with imageQueue := rest, inFlight := some qi }
    | _, _ => st
  | .finish success =>
    match st.inFlight with
    | some qi =>
      if success then
        { st with processedImages := st.processedImages ++ [qi.imageId], inFlight := none }
      else { st with inFlight := none }
    | none => st

def run (h : SiteHandler) (reading : Bool) (cfg : Config) (es : List Event)
    (st : PipeState) : PipeState :=
  es.foldl (step h reading cfg) st

/-- The state at page load (content.js lines 17-30), with detection enabled. -/
def initState : PipeState :=
  { isEnabled := true, processedImages := [], imageQueue := [],
    inFlight := none, totalDetected := 0, enqueueLog := [] }

/-! ## Byte extraction tiers (content.js lines 336-440, part_000 lines 396-550)

The three I/O operations are described by an environment: tier 1 is the
offscreen canvas redraw, tier 2 the direct CORS fetch, tier 3 the privileged
background fetch. Each extraction function returns the settled result
(`Except` message on rejection) together with the ghost list of tiers it
attempted, in order. -/

inductive Tier1Result
  | ok (data : String)
  | loadError
  | taint
deriving DecidableEq

inductive Tier2Result
  | ok (data : String)
  | netError (msg : String)
  | httpError (status : Nat)
deriving DecidableEq

inductive Tier3Result
  | ok (data : String)
  | noResponse
  | failure (msg : String)
deriving DecidableEq

structure FetchEnv where
  tier1 : Tier1Result
  tier2 : Tier2Result
  tier3 : Tier3Result
deriving DecidableEq

/-- `fetchImageDirect` (content.js lines 407-424): non-ok status or a network
error rejects. -/
def fetchImageDirect (env : FetchEnv) : Except String String :=
  match env.tier2 with
  | .ok d => .ok d
  | .netError msg => .error msg
  | .httpError status => .error ("HTTP error! status: " ++ toString status)

/-- `fetchImageViaBackground` (content.js lines 429-440, part_000 lines
519-550): an absent response and an explicit failure flag both reject, with
distinct messages. -/
def fetchImageViaBackground (env : FetchEnv) : Except String String :=
  match env.tier3 with
  | .ok d => .ok d
  | .noResponse => .error "No response from background script (extension may need reload)"
  | .failure msg => .error (if msg == "" then "Failed to fetch image via background" else msg)

/-- `fetchImageWithFallback` (content.js lines 386-402, identically part_000
lines 460-480): skip the direct attempt when the site needs background fetch,
otherwise fall back to it on any direct-fetch rejection. -/
def fetchImageWithFallback (h : SiteHandler) (env : FetchEnv) :
    Except String String × List Nat :=
  if h.needsBackgroundFetch then
    (fetchImageViaBackground env, [3])
  else
    match fetchImageDirect env with
    | .ok d => (.ok d, [2])
    | .error _ => (fetchImageViaBackground env, [2, 3])

/-- `extractImageAsBase64` of `src/extension/content.js` (lines 339-379): the
canvas redraw is always attempted first; a cross-origin load error or a
tainted canvas falls through to `fetchImageWithFallback`. The JPEG/PNG
serialization choice is inside the tier-1 `data`. -/
def extractImageAsBase64 (h : SiteHandler) (env : FetchEnv) :
    Except String String × List Nat :=
  match env.tier1 with
  | .ok d => (.ok d, [1])
  | .loadError =>
    let r := fetchImageWithFallback h env
    (r.1, 1 :: r.2)
  | .taint =>
    let r := fetchImageWithFallback h env
    (r.1, 1 :: r.2)

/-- `extractImageAsBase64` of `src/unnamed/part_000` (lines 396-453): when the
site handler declares `needsBackgroundFetch`, the canvas attempt is skipped
entirely and control goes straight to `fetchImageWithFallback` (which then
also skips the direct fetch). -/
def extractImageAsBase64_v2 (h : SiteHandler) (env : FetchEnv) :
    Except String String × List Nat :=
  if h.needsBackgroundFetch then
    fetchImageWithFallback h env
  else
    extractImageAsBase64 h env

def exceptIsOk (r : Except String String) : Bool :=
  match r with
  | .ok _ => true
  | .error _ => false

/-! ## The queue worker loop

`processQueue` shifts the head and drives extraction, submission and result
application; its I/O per item is an oracle: the settled extraction result and
the settled `UPSCALE_IMAGE` round-trip (a thrown send is `Except.error`, a
delivered response is `(success, payload)` where `payload` is `dataUrl` on
success and `error` otherwise). -/

deriving instance DecidableEq for Except

structure ItemOutcome where
  extract : Except String String
  send : Except String (Bool × String)
deriving DecidableEq

/-- Worker-visible mutable state threaded through the loop. `overlays` holds
the `imageId`s of elements currently bearing a loading overlay;
`attemptLog`/`submitLog` are ghost records of items the loop started and of
`UPSCALE_IMAGE` messages actually sent. -/
structure WorkerCtx where
  processedImages : List String
  imageCache : List (String × String)
  overlays : List String
  totalUpscaled : Nat
  attemptLog : List String
  submitLog : List String
deriving DecidableEq

/-- One iteration of the `while` body of `processQueue` in
`src/extension/content.js` (lines 534-574): extraction failure or send
failure is caught, the loading indicator removed, and the loop continues;
only a successful response marks the id processed. -/
def runItem (qi : QueueItem) (o : ItemOutcome) (w : WorkerCtx) : WorkerCtx :=
  let w := { w with attemptLog := w.attemptLog ++ [qi.imageId] }
  match o.extract with
  | .error _ => { w with overlays := w.overlays.erase qi.imageId }
  | .ok _base64 =>
    let w := { w with submitLog := w.submitLog ++ [qi.imageId] }
    match o.send with
    | .error _ => { w with overlays := w.overlays.erase qi.imageId }
    | .ok (true, dataUrl) =>
      { w with
          processedImages := w.processedImages ++ [qi.imageId],
          overlays := w.overlays.erase qi.imageId,
          imageCache := w.imageCache ++ [(qi.imageId, dataUrl)],
          totalUpscaled := w.totalUpscaled + 1 }
    | .ok (false, _) => { w with overlays := w.overlays.erase qi.imageId }

/-- The whole `processQueue` drain of `src/extension/content.js` (lines
528-578) over the queue it observes: every item is consumed, the per-item
`try`/`catch` never exits the loop. -/
def processQueueDrain : List QueueItem → List ItemOutcome → WorkerCtx → WorkerCtx
  | [], _, w => w
  | qi :: rest, os, w =>
    processQueueDrain rest os.tail
      (runItem qi (os.headD { extract := .error "", send := .error "" }) w)

/-- Whether an outcome leads to the success branch of the worker
(`response.success` after a successful extraction). -/
def outcomeSucceeds (o : ItemOutcome) : Bool :=
  match o.extract, o.send with
  | .ok _, .ok (true, _) => true
  | _, _ => false

/-! ## The part_000 worker (`processQueue`, part_000 lines 657-770)

This revision adds: the oversize skip before submission (lines 686-692), the
user-visible notifications with their titles, and a clean stop of the loop
when the runtime reports `Extension context invalidated` (lines 749-752).
Extraction is abstracted to the settled base64 *length* (the only property
this loop reads before submission). -/

structure ItemOutcomeV2 where
  extract : Except String Nat
  send : Except String (Bool × String)
deriving DecidableEq

structure WorkerCtxV2 where
  processedImages : List String
  overlays : List String
  totalUpscaled : Nat
  attemptLog : List String
  submitLog : List String
  notifications : List String
deriving DecidableEq

inductive StepOut
  | continue_ (w : WorkerCtxV2)
  | halted (w : WorkerCtxV2)
deriving DecidableEq

/-- The catch-block of part_000 lines 744-761: remove the indicator, stop the
loop on an invalidated extension context, otherwise notify and continue. -/
def catchBlockV2 (qi : QueueItem) (msg : String) (w : WorkerCtxV2) : StepOut :=
  let w := { w with overlays := w.overlays.erase qi.imageId }
  if jsStrIncludes msg "Extension context invalidated" then
    .halted w
  else if jsStrIncludes msg "message may have failed to send" then
    .continue_ { w with notifications := w.notifications ++ ["Message Send Failed"] }
  else
    .continue_ { w with notifications := w.notifications ++ ["Upscale Error"] }

/-- One iteration of the `while` body of part_000's `processQueue` (lines
670-765). `20971520 = 20 * 1024 * 1024` is the hard byte ceiling; the
`length / 1024 / 1024 > 20` comparison against the float quotient is exact at
this magnitude. -/
def runItemV2 (qi : QueueItem) (o : ItemOutcomeV2) (w : WorkerCtxV2) : StepOut :=
  let w := { w with attemptLog := w.attemptLog ++ [qi.imageId] }
  match o.extract with
  | .error msg => catchBlockV2 qi msg w
  | .ok len =>
    if 20971520 < len then
      .continue_ { w with
          notifications := w.notifications ++ ["Image Too Large"],
          overlays := w.overlays.erase qi.imageId }
    else
      let w := { w with submitLog := w.submitLog ++ [qi.imageId] }
      match o.send with
      | .error msg => catchBlockV2 qi msg w
      | .ok (true, _dataUrl) =>
        .continue_ { w with
            processedImages := w.processedImages ++ [qi.imageId],
            overlays := w.overlays.erase qi.imageId,
            totalUpscaled := w.totalUpscaled + 1 }
      | .ok (false, err) =>
        let w := { w with overlays := w.overlays.erase qi.imageId }
        if jsStrIncludes err "Server not available" then
          .continue_ { w with notifications := w.notifications ++ ["AI Upscale Server Not Running"] }
        else if jsStrIncludes err "timed out" then
          .continue_ { w with notifications := w.notifications ++ ["AI Upscale Timeout"] }
        else
          .continue_ w

/-- The part_000 `processQueue` drain; returns the final context and the items
left in the queue if the loop exited early via the invalidated-context
`return`. -/
def processQueueDrainV2 :
    List QueueItem → List ItemOutcomeV2 → WorkerCtxV2 → WorkerCtxV2 × List QueueItem
  | [], _, w => (w, [])
  | qi :: rest, os, w =>
    match runItemV2 qi (os.headD { extract := .error "", send := .error "" }) w with
    | .halted w' => (w', rest)
    | .continue_ w' => processQueueDrainV2 rest os.tail w'

/-! ## Background service worker (`src/extension/background.js` lines 1-213)

`handleUpscaleRequest` (lines 79-120). The environment settles the health
check, the origin-image fetch and the `/upscale` POST (the bounded retry
loops are abstracted to their settled result; each logical network operation
is counted once in the ghost request counter). `blobToDataUrl` is pure
conversion. -/

structure BGState where
  processingQueue : List String
  serverAvailable : Bool
deriving DecidableEq

structure BGEnv where
  healthy : Bool
  fetchResult : Except String String
  upscaleResult : Except String String
deriving DecidableEq

inductive BGResponse
  | ok (dataUrl : String) (imageId : String)
  | fail (error : String)
deriving DecidableEq

/-- `handleUpscaleRequest` (background.js lines 79-120): duplicate ids are
answered immediately; otherwise the id is put into `processingQueue` and
removed again on the success path (line 109) and in the catch block
(line 117) before the error is rethrown. The third component is the ghost
count of network requests issued. -/
def handleUpscaleRequest (env : BGEnv) (imageId : String) (st : BGState) :
    Except String BGResponse × BGState × Nat :=
  if st.processingQueue.contains imageId then
    (.ok (.fail "Already processing this image"), st, 0)
  else
    let avail := if st.serverAvailable then true else env.healthy
    let st1 := if st.serverAvailable then st else { st with serverAvailable := env.healthy }
    let n1 := if st.serverAvailable then 0 else 1
    if !avail then
      (.ok (.fail "Server not available"), st1, n1)
    else
      let st2 := { st1 with processingQueue := imageId :: st1.processingQueue }
      match env.fetchResult with
      | .error e =>
        (.error e,
         { st2 with processingQueue := st2.processingQueue.erase imageId }, n1 + 1)
      | .ok _blob =>
        match env.upscaleResult with
        | .error e =>
          (.error e,
           { st2 with
               processingQueue := st2.processingQueue.erase imageId,
               serverAvailable := false }, n1 + 2)
        | .ok upBlob =>
          (.ok (.ok upBlob imageId),
           { st2 with processingQueue := st2.processingQueue.erase imageId }, n1 + 2)

/-! ## Concrete elements used to instantiate the theorems -/

/-- A plain content image: known dimensions 800x1200, loaded, no lazy-load
attributes. -/
def imgA : Img :=
  { src := "https://cdn.example/page7.jpg", dataUrlAttr := none, dataSrcAttr := none,
    widthAttr := none, heightAttr := none, alt := "", className := "",
    naturalWidth := 800, naturalHeight := 1200, complete := true,
    loadListenerAdded := false, urlObserverAdded := false, verticalPosition := 100 }

/-- A second content image further down the page (vertical offset 500). -/
def imgB : Img :=
  { imgA with src := "https://cdn.example/page8.jpg", verticalPosition := 500 }

/-- A loaded image 2500 pixels wide (inside the bound claim C5 states, outside
the bound `CONFIG` sets). -/
def img2500 : Img :=
  { imgA with src := "https://cdn.example/wide.jpg", naturalWidth := 2500, naturalHeight := 1000 }

/-- A loaded image of natural size 150x300 (below the 200px minimum). -/
def img150 : Img :=
  { imgA with naturalWidth := 150, naturalHeight := 300 }

/-- An image whose resolved URL contains a code point above the Latin-1 range
(the kanji in the host name). -/
def imgKanji : Img :=
  { imgA with src := "https://漫画.example/page7.jpg" }

/-- An image whose dimensions are not yet available (`naturalWidth` and
`naturalHeight` are 0 and the load never completes). -/
def imgUnloaded : Img :=
  { imgA with naturalWidth := 0, naturalHeight := 0, complete := false }

/-! ## Structure of a detection pass over the queue -/

set_option maxHeartbeats 1000000 in
/-- A detection pass either leaves the module queue state untouched or, when
every filter passes and the identifier is in neither `processedImages` nor the
live queue, appends exactly one new `QueueItem` and re-sorts. -/
theorem processImage_queue_shape (h : SiteHandler) (reading : Bool) (cfg : Config)
    (img : Img) (st : PipeState) :
    (processImage h reading cfg img st).1 = st ∨
    ∃ id : String, getImageId h img = some id ∧
      st.processedImages.contains id = false ∧
      st.imageQueue.any (fun it => it.imageId == id) = false ∧
      (meetsImageCriteria cfg h img).eligible = true ∧
      (processImage h reading cfg img st).1 =
        { st with
            totalDetected := st.totalDetected + 1,
            imageQueue :=
              (st.imageQueue ++
                [({ imageId := id, actualUrl := (h.getImageUrl img).getD "",
                    verticalPosition := img.verticalPosition } : QueueItem)]).insertionSort qle,
            enqueueLog := st.enqueueLog ++ [id] } := by
  unfold processImage
  repeat' split
  all_goals try exact Or.inl rfl
  next imageId heq h1 h2 h3 =>
    exact Or.inr ⟨imageId, heq, by simpa using h2, by simpa using h3, by simpa using h1, rfl⟩

/-- C1 counterexample: two detection passes over the same resolved URL with
the worker dequeue between them create two QueueItems. The trace is: detect
`imgA` (enqueued), the worker shifts it (in flight, not yet processed), detect
`imgA` again — the identifier is in neither `processedImages` nor the queue,
so `processImage` enqueues a second item for the same identifier. -/
theorem dedup_inflight_counterexample :
    (run genericHandler true CONFIG
        [Event.detect imgA, Event.dequeue, Event.detect imgA] initState).enqueueLog =
      [(getImageId genericHandler imgA).getD "", (getImageId genericHandler imgA).getD ""] := by
  rfl

/-- C1 (amended): a detection pass never enqueues an identifier that is in
`ProcessedSet` or present as a live QueueItem — the queue and the creation log
are left unchanged. (The in-flight window, after the worker has shifted the
item and before it is marked processed, is not protected; see the
counterexample.) -/
theorem processImage_never_reenqueues (h : SiteHandler) (reading : Bool) (cfg : Config)
    (img : Img) (st : PipeState) (id : String)
    (hid : getImageId h img = some id)
    (hmem : st.processedImages.contains id = true ∨
            st.imageQueue.any (fun it => it.imageId == id) = true) :
    (processImage h reading cfg img st).1.imageQueue = st.imageQueue ∧
    (processImage h reading cfg img st).1.enqueueLog = st.enqueueLog := by
  rcases processImage_queue_shape h reading cfg img st with he | ⟨id2, hid2, hp, hq, _, _⟩
  · rw [he]; exact ⟨rfl, rfl⟩
  · rw [hid] at hid2
    cases hid2
    rcases hmem with hm | hm
    · rw [hm] at hp; cases hp
    · rw [hm] at hq; cases hq

theorem processImage_never_reenqueues_witness :
    (processImage genericHandler true CONFIG imgA
        { initState with
            processedImages := [(getImageId genericHandler imgA).getD ""] }).1.imageQueue = [] := by
  have h := processImage_never_reenqueues genericHandler true CONFIG imgA
      { initState with processedImages := [(getImageId genericHandler imgA).getD ""] }
      ((getImageId genericHandler imgA).getD "") (by rfl) (Or.inl (by rfl))
  exact h.1

/-- Every step of the interleaving machine keeps the queue sorted by vertical
offset: an insertion re-sorts the whole queue (content.js line 519), the
worker removes the head, and finishing an item does not touch the queue. -/
theorem step_preserves_sorted (h : SiteHandler) (reading : Bool) (cfg : Config)
    (st : PipeState) (e : Event) (hs : st.imageQueue.Sorted qle) :
    ((step h reading cfg st e).imageQueue).Sorted qle := by
  cases e with
  | detect img =>
    rcases processImage_queue_shape h reading cfg img st with he | ⟨id, _, _, _, _, he⟩
    · simpa [step, he] using hs
    · simp only [step, he]
      exact List.sorted_insertionSort qle _
  | dequeue =>
    simp only [step]
    split
    · next qi rest heq1 heq2 =>
      rw [heq2] at hs
      exact hs.tail
    · exact hs
  | finish success =>
    simp only [step]
    split
    · split <;> exact hs
    · exact hs

theorem run_sorted (h : SiteHandler) (reading : Bool) (cfg : Config)
    (es : List Event) (st : PipeState) (hs : st.imageQueue.Sorted qle) :
    ((run h reading cfg es st).imageQueue).Sorted qle := by
  induction es generalizing st with
  | nil => exact hs
  | cons e es ih => exact ih _ (step_preserves_sorted h reading cfg st e hs)

/-- C2: in every reachable state of the pipeline the queue is sorted by
non-decreasing vertical offset recorded at insertion time, and therefore the
item the worker dequeues (always the head, content.js line 535) has an offset
no larger than that of every item still queued — i.e. items present in the
queue simultaneously are serviced in non-decreasing offset order. -/
theorem queue_sorted_and_head_min (h : SiteHandler) (reading : Bool) (cfg : Config)
    (es : List Event) :
    ((run h reading cfg es initState).imageQueue).Sorted qle ∧
    (∀ x rest, (run h reading cfg es initState).imageQueue = x :: rest →
      ∀ y ∈ rest, x.verticalPosition ≤ y.verticalPosition) := by
  have hs := run_sorted h reading cfg es initState (by simp [initState])
  refine ⟨hs, fun x rest heq y hy => ?_⟩
  rw [heq] at hs
  exact (List.pairwise_cons.mp hs).1 y hy

theorem queue_sorted_and_head_min_witness : (100 : Int) ≤ 500 := by
  exact (queue_sorted_and_head_min genericHandler true CONFIG
      [Event.detect imgB, Event.detect imgA]).2
      ⟨(getImageId genericHandler imgA).getD "", "https://cdn.example/page7.jpg", 100⟩
      [⟨(getImageId genericHandler imgB).getD "", "https://cdn.example/page8.jpg", 500⟩]
      (by rfl)
      ⟨(getImageId genericHandler imgB).getD "", "https://cdn.example/page8.jpg", 500⟩
      (by simp)

/-- C3: for a handler without the privileged-fetch flag, when tier 1 (canvas
redraw) fails by cross-origin load error or canvas taint and tier 2 (direct
CORS fetch) fails by network error or non-success HTTP status, the extractor
attempts tier 3 (privileged background fetch) — the attempted tiers are
exactly `[1, 2, 3]` — and the overall result is a failure precisely when tier
3 also fails, i.e. failure is reported only after all three tiers are
exhausted. -/
theorem extraction_fallback_order (h : SiteHandler) (env : FetchEnv)
    (hbg : h.needsBackgroundFetch = false)
    (h1 : env.tier1 = Tier1Result.loadError ∨ env.tier1 = Tier1Result.taint)
    (h2 : ∀ d, env.tier2 ≠ Tier2Result.ok d) :
    (extractImageAsBase64 h env).2 = [1, 2, 3] ∧
    (exceptIsOk (extractImageAsBase64 h env).1 = true ↔ ∃ d, env.tier3 = Tier3Result.ok d) := by
  have hfall : fetchImageWithFallback h env = (fetchImageViaBackground env, [2, 3]) := by
    unfold fetchImageWithFallback fetchImageDirect
    rw [hbg]
    cases ht2 : env.tier2 with
    | ok d => exact absurd ht2 (h2 d)
    | netError msg => simp
    | httpError status => simp
  have hextract : extractImageAsBase64 h env = (fetchImageViaBackground env, [1, 2, 3]) := by
    unfold extractImageAsBase64
    rcases h1 with h1 | h1 <;> rw [h1] <;> rw [hfall]
  rw [hextract]
  refine ⟨rfl, ?_⟩
  unfold fetchImageViaBackground exceptIsOk
  cases ht3 : env.tier3 with
  | ok d => simp
  | noResponse => simp
  | failure msg => constructor
                   · intro hcontra; split at hcontra <;> simp_all
                   · rintro ⟨d, hd⟩; cases hd

theorem extraction_fallback_order_witness :
    (extractImageAsBase64 webtoonHandler
        ⟨Tier1Result.taint, Tier2Result.httpError 403, Tier3Result.ok "DATA"⟩).2 = [1, 2, 3] ∧
    exceptIsOk (extractImageAsBase64 webtoonHandler
        ⟨Tier1Result.taint, Tier2Result.httpError 403, Tier3Result.ok "DATA"⟩).1 = true := by
  have h := extraction_fallback_order webtoonHandler
      ⟨Tier1Result.taint, Tier2Result.httpError 403, Tier3Result.ok "DATA"⟩
      rfl (Or.inr rfl) (fun d hd => by cases hd)
  exact ⟨h.1, h.2.mpr ⟨"DATA", rfl⟩⟩

/-- C4: in the part_000 revision of the extractor, a handler with
`needsBackgroundFetch = true` short-circuits straight to tier 3: the attempted
tiers are exactly `[3]` — neither the canvas redraw nor the direct fetch is
attempted — and the result is whatever the privileged background fetch
settles to. -/
theorem needs_background_short_circuit (h : SiteHandler) (env : FetchEnv)
    (hbg : h.needsBackgroundFetch = true) :
    (extractImageAsBase64_v2 h env).2 = [3] ∧
    (extractImageAsBase64_v2 h env).1 = fetchImageViaBackground env := by
  unfold extractImageAsBase64_v2 fetchImageWithFallback
  rw [hbg]
  simp

theorem needs_background_short_circuit_witness :
    (extractImageAsBase64_v2 asuraHandler
        ⟨Tier1Result.ok "CANVAS", Tier2Result.ok "DIRECT", Tier3Result.ok "BG"⟩).2 = [3] ∧
    (extractImageAsBase64_v2 asuraHandler
        ⟨Tier1Result.ok "CANVAS", Tier2Result.ok "DIRECT", Tier3Result.ok "BG"⟩).1 =
      Except.ok "BG" := by
  have h := needs_background_short_circuit asuraHandler
      ⟨Tier1Result.ok "CANVAS", Tier2Result.ok "DIRECT", Tier3Result.ok "BG"⟩ rfl
  exact ⟨h.1, h.2⟩

/-- The eligibility bounds exactly as claim C5 words them: within the 200x200
minimum, at most 3000 wide and at most 20000 tall. -/
def claimC5Bounds (w h : Int) : Bool :=
  200 ≤ w && 200 ≤ h && w ≤ 3000 && h ≤ 20000

/-- C5 counterexample: a fully loaded 2500x1000 image is inside the bounds the
claim states (its stated maximum width is 3000), yet `meetsImageCriteria`
rejects it — `CONFIG.maxImageWidth` in content.js line 8 is 2000, not 3000. -/
theorem meets_criteria_width_counterexample :
    claimC5Bounds 2500 1000 = true ∧
    (meetsImageCriteria CONFIG genericHandler img2500).eligible = false := by
  exact ⟨rfl, rfl⟩

/-- C5 (amended): for an image whose dimensions are available (both axes
nonzero), that has finished loading (`complete`) and whose current source is
not a placeholder stand-in, `meetsImageCriteria` returns true exactly when
both axes are inside the configured bounds — at least 200x200, width at most
2000, height at most 20000 — and such a call registers no load listener and
leaves the element untouched. -/
theorem meets_criteria_bounds (h : SiteHandler) (img : Img)
    (hw : img.naturalWidth ≠ 0) (hh : img.naturalHeight ≠ 0)
    (hc : img.complete = true) (hp : isPlaceholderLoaded img = false) :
    ((meetsImageCriteria CONFIG h img).eligible = true ↔
      (200 ≤ (img.naturalWidth : Int) ∧ 200 ≤ (img.naturalHeight : Int) ∧
       (img.naturalWidth : Int) ≤ 2000 ∧ (img.naturalHeight : Int) ≤ 20000)) ∧
    (meetsImageCriteria CONFIG h img).listenersRegistered = 0 ∧
    (meetsImageCriteria CONFIG h img).img = img := by
  have hdims : gateDims h img = ((img.naturalWidth : Int), (img.naturalHeight : Int)) := by
    unfold gateDims
    rw [hp]
    simp
  have hdef2 : gateDefer img (img.naturalWidth : Int) (img.naturalHeight : Int) = false := by
    unfold gateDefer
    rw [hp, hc]
    simp [hw, hh]
  simp only [meetsImageCriteria, hdims, hdef2, Bool.false_eq_true, if_false, CONFIG]
  refine ⟨?_, ?_, ?_⟩
  · split
    · next hlt =>
      refine ⟨fun hcontra => Bool.noConfusion hcontra, fun hand => ?_⟩
      exfalso
      obtain ⟨a, b, c, d⟩ := hand
      simp only [Bool.or_eq_true, decide_eq_true_eq] at hlt
      rcases hlt with hl | hl <;> omega
    · split
      · next hgt =>
        refine ⟨fun hcontra => Bool.noConfusion hcontra, fun hand => ?_⟩
        exfalso
        obtain ⟨a, b, c, d⟩ := hand
        simp only [Bool.or_eq_true, decide_eq_true_eq] at hgt
        rcases hgt with hg | hg <;> omega
      · next hlt hgt =>
        refine ⟨fun _ => ?_, fun _ => rfl⟩
        simp only [Bool.or_eq_true, decide_eq_true_eq, not_or] at hlt hgt
        push_neg at hlt hgt
        exact ⟨hlt.1, hlt.2, hgt.1, hgt.2⟩
  · split
    · rfl
    · split <;> rfl
  · split
    · rfl
    · split <;> rfl

theorem meets_criteria_bounds_witness :
    (meetsImageCriteria CONFIG genericHandler img150).eligible = false ∧
    (meetsImageCriteria CONFIG genericHandler img150).listenersRegistered = 0 := by
  have h := meets_criteria_bounds genericHandler img150 (by decide) (by decide) rfl (by rfl)
  refine ⟨?_, h.2.1⟩
  have hne : ¬(200 ≤ (img150.naturalWidth : Int) ∧ 200 ≤ (img150.naturalHeight : Int) ∧
      (img150.naturalWidth : Int) ≤ 2000 ∧ (img150.naturalHeight : Int) ≤ 20000) := by decide
  cases he : (meetsImageCriteria CONFIG genericHandler img150).eligible
  · rfl
  · exact absurd (h.1.mp he) hne

/-- C6: when the extracted payload exceeds the 20 MB ceiling, the part_000
worker step removes the loading overlay, emits the distinct "Image Too Large"
notification, leaves `submitLog` and `processedImages` untouched (the item is
never submitted, never marked processed) and the loop continues with the rest
of the queue — the item itself is consumed and never re-queued. -/
theorem oversize_skip (qi : QueueItem) (rest : List QueueItem) (o : ItemOutcomeV2)
    (os : List ItemOutcomeV2) (w : WorkerCtxV2) (len : Nat)
    (hx : o.extract = Except.ok len) (hlen : 20971520 < len) :
    runItemV2 qi o w = StepOut.continue_
      { w with
          attemptLog := w.attemptLog ++ [qi.imageId],
          notifications := w.notifications ++ ["Image Too Large"],
          overlays := w.overlays.erase qi.imageId } ∧
    processQueueDrainV2 (qi :: rest) (o :: os) w =
      processQueueDrainV2 rest os
        { w with
            attemptLog := w.attemptLog ++ [qi.imageId],
            notifications := w.notifications ++ ["Image Too Large"],
            overlays := w.overlays.erase qi.imageId } := by
  have hrun : runItemV2 qi o w = StepOut.continue_
      { w with
          attemptLog := w.attemptLog ++ [qi.imageId],
          notifications := w.notifications ++ ["Image Too Large"],
          overlays := w.overlays.erase qi.imageId } := by
    unfold runItemV2
    rw [hx]
    simp [hlen]
  refine ⟨hrun, ?_⟩
  show (match runItemV2 qi ((o :: os).headD { extract := .error "", send := .error "" }) w with
        | .halted w' => (w', rest)
        | .continue_ w' => processQueueDrainV2 rest (o :: os).tail w') = _
  rw [show (o :: os).headD { extract := Except.error "", send := Except.error "" } = o from rfl, hrun]
  rfl

/-- The worker context of an empty page session with one overlaid element. -/
def ctxOversize : WorkerCtxV2 :=
  { processedImages := [], overlays := ["idbig"], totalUpscaled := 0,
    attemptLog := [], submitLog := [], notifications := [] }

theorem oversize_skip_witness :
    (processQueueDrainV2 [⟨"idbig", "https://cdn.example/big.jpg", 0⟩]
        [{ extract := Except.ok 20971521, send := Except.error "" }] ctxOversize).1.submitLog = [] ∧
    (processQueueDrainV2 [⟨"idbig", "https://cdn.example/big.jpg", 0⟩]
        [{ extract := Except.ok 20971521, send := Except.error "" }] ctxOversize).1.notifications =
      ["Image Too Large"] := by
  have h := oversize_skip ⟨"idbig", "https://cdn.example/big.jpg", 0⟩ []
      { extract := Except.ok 20971521, send := Except.error "" } [] ctxOversize 20971521 rfl
      (by decide)
  rw [h.2]
  exact ⟨rfl, rfl⟩

/-- A failing outcome leaves the worker context unchanged except for the
attempt log and the removed loading overlay: nothing is marked processed and
no counter moves. -/
theorem runItem_fail (qi : QueueItem) (o : ItemOutcome) (w : WorkerCtx)
    (hf : outcomeSucceeds o = false) :
    (runItem qi o w).processedImages = w.processedImages ∧
    (runItem qi o w).totalUpscaled = w.totalUpscaled ∧
    (runItem qi o w).attemptLog = w.attemptLog ++ [qi.imageId] ∧
    (runItem qi o w).overlays = w.overlays.erase qi.imageId := by
  unfold runItem
  unfold outcomeSucceeds at hf
  cases hx : o.extract with
  | error msg => simp
  | ok d =>
    cases hs : o.send with
    | error msg => simp
    | ok p =>
      obtain ⟨b, payload⟩ := p
      cases b
      · simp
      · rw [hx, hs] at hf
        cases hf

/-- C7: the content.js worker drains the entire queue even when every item
fails: every item is attempted in order (`attemptLog`), each failing item's
loading overlay is removed, nothing is added to `ProcessedSet` and the
success counter never moves — a single failure never halts the loop. -/
theorem fail_forward (items : List QueueItem) (os : List ItemOutcome) (w : WorkerCtx)
    (hlen : os.length = items.length)
    (hfail : ∀ o ∈ os, outcomeSucceeds o = false) :
    (processQueueDrain items os w).processedImages = w.processedImages ∧
    (processQueueDrain items os w).totalUpscaled = w.totalUpscaled ∧
    (processQueueDrain items os w).attemptLog =
      w.attemptLog ++ items.map (fun qi => qi.imageId) ∧
    (processQueueDrain items os w).overlays =
      items.foldl (fun acc qi => acc.erase qi.imageId) w.overlays := by
  induction items generalizing os w with
  | nil =>
    simp [processQueueDrain]
  | cons qi rest ih =>
    cases os with
    | nil => simp at hlen
    | cons o os2 =>
      have hstep : processQueueDrain (qi :: rest) (o :: os2) w =
          processQueueDrain rest os2 (runItem qi o w) := rfl
      rw [hstep]
      have hf := hfail o (List.mem_cons_self o os2)
      have hr := runItem_fail qi o w hf
      have hrest := ih os2 (runItem qi o w) (by simpa using hlen)
        (fun o2 ho2 => hfail o2 (List.mem_cons_of_mem o ho2))
      refine ⟨?_, ?_, ?_, ?_⟩
      · rw [hrest.1, hr.1]
      · rw [hrest.2.1, hr.2.1]
      · rw [hrest.2.2.1, hr.2.2.1]
        simp [List.append_assoc]
      · rw [hrest.2.2.2, hr.2.2.2]
        simp [List.foldl_cons]

/-- A worker context with one already-processed id and two overlaid elements. -/
def ctxFail : WorkerCtx :=
  { processedImages := ["z"], imageCache := [], overlays := ["a", "b"],
    totalUpscaled := 0, attemptLog := [], submitLog := [] }

theorem fail_forward_witness :
    (processQueueDrain [⟨"a", "u", 0⟩, ⟨"b", "v", 1⟩]
        [{ extract := Except.error "boom", send := Except.error "" },
         { extract := Except.ok "data", send := Except.ok (false, "HTTP 500") }]
        ctxFail).processedImages = ["z"] ∧
    (processQueueDrain [⟨"a", "u", 0⟩, ⟨"b", "v", 1⟩]
        [{ extract := Except.error "boom", send := Except.error "" },
         { extract := Except.ok "data", send := Except.ok (false, "HTTP 500") }]
        ctxFail).attemptLog = ["a", "b"] ∧
    (processQueueDrain [⟨"a", "u", 0⟩, ⟨"b", "v", 1⟩]
        [{ extract := Except.error "boom", send := Except.error "" },
         { extract := Except.ok "data", send := Except.ok (false, "HTTP 500") }]
        ctxFail).overlays = [] := by
  have h := fail_forward [⟨"a", "u", 0⟩, ⟨"b", "v", 1⟩]
      [{ extract := Except.error "boom", send := Except.error "" },
       { extract := Except.ok "data", send := Except.ok (false, "HTTP 500") }]
      ctxFail rfl (by decide)
  refine ⟨?_, ?_, ?_⟩
  · rw [h.1]; rfl
  · rw [h.2.2.1]; rfl
  · rw [h.2.2.2]; rfl

/-- Iterated re-evaluation of the eligibility gate on the same element:
`gateIter n img` runs `meetsImageCriteria` `n` times, threading the element
(with its dataset flag) through, and sums the load-listener registrations.
Modelling the situation where the load event never fires, nothing else
touches the element between calls. -/
def gateIter (cfg : Config) (h : SiteHandler) : Nat → Img → Img × Nat
  | 0, img => (img, 0)
  | n + 1, img =>
    (fun r => (fun t => (t.1, r.listenersRegistered + t.2)) (gateIter cfg h n r.img))
      (meetsImageCriteria cfg h img)

/-- On an element already carrying `loadListenerAdded`, a deferring gate call
is a no-op: it registers nothing and leaves the element unchanged. -/
theorem meets_criteria_flagged (cfg : Config) (h : SiteHandler) (img1 : Img)
    (hflag : img1.loadListenerAdded = true)
    (hdef : gateDefer img1 (gateDims h img1).1 (gateDims h img1).2 = true) :
    meetsImageCriteria cfg h img1 = ⟨false, img1, 0⟩ := by
  simp only [meetsImageCriteria]
  rw [hdef]
  simp [hflag]

theorem gateIter_flagged (cfg : Config) (h : SiteHandler) (img1 : Img)
    (hflag : img1.loadListenerAdded = true)
    (hdef : gateDefer img1 (gateDims h img1).1 (gateDims h img1).2 = true) :
    ∀ n, gateIter cfg h n img1 = (img1, 0) := by
  intro n
  induction n with
  | zero => rfl
  | succ n ih =>
    simp only [gateIter, meets_criteria_flagged cfg h img1 hflag hdef, ih]

/-- C8: calling `meetsImageCriteria` any number of times (at least once) on an
element whose dimensions never resolve registers exactly one load listener in
total — the per-element `loadListenerAdded` one-shot guard (content.js lines
311-317) blocks every later registration. The `hurl` hypothesis states that
the site handler's URL resolution does not read the guard flag, which holds
for every handler in the registry (they read only attributes and `src`). -/
theorem gate_idempotent (cfg : Config) (h : SiteHandler) (img : Img) (n : Nat)
    (hn : 1 ≤ n)
    (hdef : gateDefer img (gateDims h img).1 (gateDims h img).2 = true)
    (hflag : img.loadListenerAdded = false)
    (hurl : h.getImageUrl { img with loadListenerAdded := true } = h.getImageUrl img) :
    (gateIter cfg h n img).2 = 1 := by
  obtain ⟨m, rfl⟩ : ∃ m, n = m + 1 := ⟨n - 1, by omega⟩
  have hfirst : meetsImageCriteria cfg h img =
      ⟨false, { img with loadListenerAdded := true }, 1⟩ := by
    simp only [meetsImageCriteria]
    rw [hdef]
    simp [hflag]
  have hdims1 : gateDims h { img with loadListenerAdded := true } = gateDims h img := by
    unfold gateDims
    rw [hurl]
    simp [isPlaceholderLoaded]
  have hdef1 : gateDefer { img with loadListenerAdded := true }
      (gateDims h { img with loadListenerAdded := true }).1
      (gateDims h { img with loadListenerAdded := true }).2 = true := by
    rw [hdims1]
    unfold gateDefer at hdef ⊢
    simpa using hdef
  simp only [gateIter, hfirst]
  rw [gateIter_flagged cfg h { img with loadListenerAdded := true } rfl hdef1 m]
  rfl

theorem gate_idempotent_witness : (gateIter CONFIG genericHandler 3 imgUnloaded).2 = 1 :=
  gate_idempotent CONFIG genericHandler imgUnloaded 3 (by omega) (by rfl) rfl (by rfl)

/-- C9: `getImageId` is a pure function of the resolved URL
(`getImageUrl(img) || img.src`): equal resolved URLs give identical
identifiers; `btoa` throws on any URL containing a code point above the
Latin-1 range, so `getImageId` yields no identifier there; and a detection
pass whose `getImageId` throws never enqueues the image — the queue and the
QueueItem-creation log are unchanged. -/
theorem getImageId_pure_and_partial :
    (∀ (h : SiteHandler) (img1 img2 : Img),
        resolvedIdUrl h img1 = resolvedIdUrl h img2 →
        getImageId h img1 = getImageId h img2) ∧
    (∀ (h : SiteHandler) (img : Img),
        (resolvedIdUrl h img).toList.any (fun c => 255 < c.toNat) = true →
        getImageId h img = none) ∧
    (∀ (h : SiteHandler) (reading : Bool) (cfg : Config) (img : Img) (st : PipeState),
        getImageId h img = none →
        (processImage h reading cfg img st).1.imageQueue = st.imageQueue ∧
        (processImage h reading cfg img st).1.enqueueLog = st.enqueueLog) := by
  refine ⟨fun h i1 i2 he => by unfold getImageId; rw [he], ?_, ?_⟩
  · intro h img hc
    unfold getImageId btoa
    have hall : (resolvedIdUrl h img).toList.all (fun c => c.toNat ≤ 255) = false := by
      rw [List.all_eq_false]
      simp only [List.any_eq_true] at hc
      obtain ⟨c, hmem, hlt⟩ := hc
      exact ⟨c, hmem, by simp at hlt ⊢; omega⟩
    rw [hall]
    simp
  · intro h reading cfg img st hid
    rcases processImage_queue_shape h reading cfg img st with he | ⟨id, hid2, _, _, _, _⟩
    · rw [he]; exact ⟨rfl, rfl⟩
    · rw [hid] at hid2; cases hid2

theorem getImageId_pure_and_partial_witness :
    getImageId genericHandler imgKanji = none ∧
    (processImage genericHandler true CONFIG imgKanji initState).1.imageQueue = [] := by
  have hb := getImageId_pure_and_partial
  have h1 : getImageId genericHandler imgKanji = none :=
    hb.2.1 genericHandler imgKanji (by decide)
  exact ⟨h1, (hb.2.2 genericHandler true CONFIG imgKanji initState h1).1⟩

/-- C10: a duplicate `UPSCALE_IMAGE` request (its `imageId` already in the
background `processingQueue`) is answered immediately with the
already-processing failure, the state untouched and zero network requests
issued; any non-duplicate request leaves no `processingQueue` entry for its
id once it settles, on the success path and on every error path. -/
theorem bg_queue_discipline (env : BGEnv) (imageId : String) (st : BGState) :
    (st.processingQueue.contains imageId = true →
      handleUpscaleRequest env imageId st =
        (Except.ok (BGResponse.fail "Already processing this image"), st, 0)) ∧
    (st.processingQueue.contains imageId = false →
      (handleUpscaleRequest env imageId st).2.1.processingQueue.contains imageId = false) := by
  constructor
  · intro hdup
    unfold handleUpscaleRequest
    rw [hdup]
    simp
  · intro hnot
    have hmem : imageId ∉ st.processingQueue := by simpa using hnot
    unfold handleUpscaleRequest
    rw [hnot]
    simp only [Bool.false_eq_true, if_false]
    cases hsa : st.serverAvailable <;>
      cases hh : env.healthy <;>
      cases hf : env.fetchResult <;>
      cases hu : env.upscaleResult <;>
      simp [hsa, hh, hf, hu, List.erase_cons_head] <;>
      exact hmem

/-- An environment in which every network operation settles successfully. -/
def envBG : BGEnv :=
  { healthy := true, fetchResult := Except.ok "B", upscaleResult := Except.ok "U" }

theorem bg_queue_discipline_witness :
    handleUpscaleRequest envBG "IMG" { processingQueue := ["IMG"], serverAvailable := true } =
      (Except.ok (BGResponse.fail "Already processing this image"),
       { processingQueue := ["IMG"], serverAvailable := true }, 0) ∧
    (handleUpscaleRequest envBG "IMG"
        { processingQueue := [], serverAvailable := true }).2.1.processingQueue.contains "IMG" =
      false := by
  exact ⟨(bg_queue_discipline envBG "IMG" _).1 (by rfl),
         (bg_queue_discipline envBG "IMG" _).2 (by rfl)⟩
